import Mathlib

/-!
Verification model of `wakeUpLamp_whiteonly.py`: a sunrise-lamp controller
driving a PWM LED strip, keeping its RTC accurate via NTP resyncs.

The side-effecting code is embedded as event traces (`List Ev`): every PWM
operation, sleep, wifi call, NTP attempt and device reset the program performs
is recorded in order.  External inputs — the successive results of
`wifi.isconnected()` polls and the success of `ntptime.settime()` — are passed
in explicitly.  `machine.reset()` never returns, so in every trace it is the
last event, and control flow after it is not modelled as continuing.
-/

namespace WakeUpLamp

/-- Source constant `FULL_BRIGHTNESS = 1023` (100% duty cycle). -/
def FULL_BRIGHTNESS : Nat := 1023

/-- Source constant `SEC_IN_HOUR = 3600`. -/
def SEC_IN_HOUR : Nat := 3600

/-- Source constant `LIT_LENGTH = 2` (hours at brightest setting). -/
def LIT_LENGTH : Nat := 2

/-- Source constant `WAKEUP_TUPLE = (4, 45)`. -/
def WAKEUP_TUPLE : Nat × Nat := (4, 45)

/-- One observable step of the device.  Sleep durations are in milliseconds
(the source sleeps 0.5 s in `flash`, `t` = 0.005 s between fade steps, and
`litTime` whole seconds at the top of a fade). -/
inductive Ev where
  | pwmInit : Ev
  | duty : Nat → Ev
  | sleepMs : Nat → Ev
  | pwmDeinit : Ev
  | wifiActiveOn : Ev
  | wifiConnect : Ev
  | ntpSetTime : Ev
  | readLocalTime : Ev
  | wifiDisconnect : Ev
  | wifiActiveOff : Ev
  | reset : Ev
deriving DecidableEq

/-- Body of one iteration of the loop in `flash`:
`utime.sleep(0.5); pwmLED.duty(dutyCycle); utime.sleep(0.5); pwmLED.duty(0)`. -/
def flashPulse (dutyCycle : Nat) : List Ev :=
  [Ev.sleepMs 500, Ev.duty dutyCycle, Ev.sleepMs 500, Ev.duty 0]

/-- Number of iterations of `for i in range(0, num - 1)` for a Python int
`num`: the range is empty when `num - 1 <= 0`. -/
def flashPulseCount (num : Int) : Nat := (num - 1).toNat

/-- `flash(led, num, dutyCycle)`: create the PWM object, run the pulse loop
`num - 1` times, then `pwmLED.deinit()`. -/
def flash (num : Int) (dutyCycle : Nat) : List Ev :=
  (Ev.pwmInit :: (List.replicate (flashPulseCount num) (flashPulse dutyCycle)).flatten)
    ++ [Ev.pwmDeinit]

/-- The duty-cycle values of the up ramp of `fade`:
`for dutyCycle in range(0, FULL_BRIGHTNESS)` yields `0, 1, ..., 1022`. -/
def fadeUpWrites : List Nat := List.range FULL_BRIGHTNESS

/-- The duty-cycle values of the down ramp of `fade`:
`for dutyCycle in range(FULL_BRIGHTNESS, 0, -1)` yields `1023, 1022, ..., 1`. -/
def fadeDownWrites : List Nat :=
  (List.range FULL_BRIGHTNESS).map (fun i => FULL_BRIGHTNESS - i)

/-- `fade(led, litTime, t)`: create the PWM object, ramp up
(`pwmLED.duty(dutyCycle); utime.sleep(t)` per step), sleep `litTime` seconds,
ramp down the same way, then `pwmLED.deinit()`.  The source defaults are
`litTime = 1` second and `t = 0.005` s, i.e. `fade 1 5` here. -/
def fade (litTimeS tMs : Nat) : List Ev :=
  (Ev.pwmInit ::
      (fadeUpWrites.flatMap (fun d => [Ev.duty d, Ev.sleepMs tMs])
        ++ Ev.sleepMs (litTimeS * 1000)
          :: fadeDownWrites.flatMap (fun d => [Ev.duty d, Ev.sleepMs tMs])))
    ++ [Ev.pwmDeinit]

/-- Project an event to the duty value it writes, if any. -/
def dutyOf : Ev → Option Nat
  | Ev.duty d => some d
  | _ => none

/-- The sequence of duty-cycle values a trace writes, in order. -/
def dutyWrites (tr : List Ev) : List Nat := tr.filterMap dutyOf

/-- The `while not wifi.isconnected(): flash(led, 2, 100)` loop of
`connectToWifi`, driven by the successive poll results.  Returns `none` when
the given poll prefix never reports connected (the loop is still running),
and `some` of the emitted events once a poll reports connected. -/
def connectLoop : List Bool → Option (List Ev)
  | [] => none
  | connected :: rest =>
    if connected then some []
    else (connectLoop rest).map (fun evs => flash 2 100 ++ evs)

/-- `connectToWifi(led)`: `wifi.active(True); wifi.connect(SSID, PW)`, then
block in `connectLoop` until `wifi.isconnected()`. -/
def connectToWifi (polls : List Bool) : Option (List Ev) :=
  (connectLoop polls).map (fun evs => Ev.wifiActiveOn :: Ev.wifiConnect :: evs)

/-- `updateRTCFromNTP(led)`: connect to wifi, then `try: ntptime.settime()`.
On `OSError` (`ntpOk = false`): `flash(led, 4, FULL_BRIGHTNESS)` then
`machine.reset()` — the reset never returns, so nothing follows it.
On success: `localTime = getLocalTime()` then `disconnectFromWifi(wifi)`
(`wifi.disconnect(); wifi.active(False)`). -/
def updateRTCFromNTP (polls : List Bool) (ntpOk : Bool) : Option (List Ev) :=
  (connectToWifi polls).map (fun cEvs =>
    cEvs ++
      if ntpOk then
        [Ev.ntpSetTime, Ev.readLocalTime, Ev.wifiDisconnect, Ev.wifiActiveOff]
      else
        Ev.ntpSetTime :: (flash 4 FULL_BRIGHTNESS ++ [Ev.reset]))

/-- `setup(led)`: `await fade(led)` with the source defaults (1 s hold,
0.005 s step), then `updateRTCFromNTP(led)`. -/
def setup (polls : List Bool) (ntpOk : Bool) : Option (List Ev) :=
  (updateRTCFromNTP polls ntpOk).map (fun evs => fade 1 5 ++ evs)

/-- `main()` runs `setup` and then enters the scheduler loop `clock`.
Because `machine.reset()` never returns, `clock` is reached exactly when
`setup` completes with no reset in its trace. -/
def mainEntersScheduler (polls : List Bool) (ntpOk : Bool) : Bool :=
  match setup polls ntpOk with
  | none => false
  | some tr => if Ev.reset ∈ tr then false else true

/-- The blocking calls one iteration of the scheduler loop `clock` makes,
in source order. -/
inductive Action where
  | sunriseFade (litTimeS tMs : Nat) : Action
  | resyncClock : Action
  | pollSleep (s : Nat) : Action
deriving DecidableEq

/-- The resync test of `clock`:
`hourMin == (0, 0) or hourMin == (6, 0) or hourMin == (12, 0) or hourMin == (18, 0)`. -/
def isResyncTime (hm : Nat × Nat) : Bool :=
  hm == (0, 0) || hm == (6, 0) || hm == (12, 0) || hm == (18, 0)

/-- One iteration of the `while True` loop of `clock`, as a function of the
single sample `hourMin = getLocalTime()[3:5]` taken at its top: if it equals
the wake tuple, `await fade(led, LIT_LENGTH * SEC_IN_HOUR)` (default step
delay 0.005 s); independently, if it is one of the four resync times,
`updateRTCFromNTP(led)`; then `utime.sleep(30)`.  The wake tuple is the
configuration constant `WAKEUP_TUPLE` in the source. -/
def clockIteration (wake : Nat × Nat) (hourMin : Nat × Nat) : List Action :=
  (if hourMin = wake then [Action.sunriseFade (LIT_LENGTH * SEC_IN_HOUR) 5] else [])
    ++ (if isResyncTime hourMin then [Action.resyncClock] else [])
    ++ [Action.pollSleep 30]

/-- The trace of a `updateRTCFromNTP` run whose first connectivity poll
succeeds and whose NTP attempt fails. -/
def failTraceExample : List Ev :=
  Ev.wifiActiveOn :: Ev.wifiConnect ::
    Ev.ntpSetTime :: (flash 4 FULL_BRIGHTNESS ++ [Ev.reset])

set_option maxRecDepth 40000

/-! ### Helper lemmas -/

theorem connectLoop_replicate_false_true (k : Nat) (rest : List Bool) :
    connectLoop (List.replicate k false ++ true :: rest)
      = some (List.replicate k (flash 2 100)).flatten := by
  induction k with
  | zero => simp [connectLoop]
  | succ m ih =>
    simp [List.replicate_succ, connectLoop, ih, List.flatten_cons]

theorem connectLoop_replicate_false (k : Nat) :
    connectLoop (List.replicate k false) = none := by
  induction k with
  | zero => rfl
  | succ m ih => simp [List.replicate_succ, connectLoop, ih]

theorem mem_heartbeat_flatten {e : Ev} {k : Nat}
    (h : e ∈ (List.replicate k (flash 2 100)).flatten) : e ∈ flash 2 100 := by
  rcases List.mem_flatten.mp h with ⟨l, hl, he⟩
  have hq := List.eq_of_mem_replicate hl
  subst hq
  exact he

theorem dutyWrites_stepBlocks (l : List Nat) (t : Nat) :
    dutyWrites (l.flatMap (fun d => [Ev.duty d, Ev.sleepMs t])) = l := by
  induction l with
  | nil => rfl
  | cons a l ih =>
    simp only [List.flatMap_cons, dutyWrites, List.filterMap_append] at ih ⊢
    simp [List.filterMap_cons, dutyOf, ih]

theorem dutyWrites_fade (lt t : Nat) :
    dutyWrites (fade lt t) = fadeUpWrites ++ fadeDownWrites := by
  have h1 := dutyWrites_stepBlocks fadeUpWrites t
  have h2 := dutyWrites_stepBlocks fadeDownWrites t
  simp only [dutyWrites] at h1 h2
  simp [fade, dutyWrites, List.filterMap_append, List.filterMap_cons, dutyOf, h1, h2]

theorem reset_not_mem_fade (lt t : Nat) : Ev.reset ∉ fade lt t := by
  intro h
  simp [fade, List.mem_append, List.mem_cons, List.mem_flatMap] at h

/-! ### Claim theorems -/

/-- C1 (code_bug evidence): the fade written by the source misses both
endpoints.  The up ramp never writes `FULL_BRIGHTNESS` (it stops at 1022, so
the hold happens one step below full brightness, contradicting the source
docstring "remain at full brightness, 100% duty cycle"); the down ramp never
writes 0, so the last duty value a completed fade writes is 1, not 0; the
call does end by disabling the PWM output. -/
theorem fade_endpoints_off_by_one :
    FULL_BRIGHTNESS ∉ fadeUpWrites
    ∧ fadeUpWrites.getLast? = some 1022
    ∧ (0 : Nat) ∉ fadeDownWrites
    ∧ fadeDownWrites.getLast? = some 1
    ∧ (dutyWrites (fade 1 5)).getLast? = some 1
    ∧ (fade 1 5).getLast? = some Ev.pwmDeinit := by
  refine ⟨by decide, by decide, by decide, by decide, ?_, ?_⟩
  · rw [dutyWrites_fade]
    rw [List.getLast?_append_of_ne_nil _ (by decide)]
    decide
  · exact List.getLast?_concat _

/-- If any pulse runs, the flattened pulse duty writes end in 0. -/
theorem flatten_replicate_pulse_writes (n d : Nat) (h : 0 < n) :
    ∃ l, (List.replicate n ([d, 0] : List Nat)).flatten = l ++ [0] := by
  induction n with
  | zero => omega
  | succ m ih =>
    cases m with
    | zero => exact ⟨[d], rfl⟩
    | succ p =>
      rcases ih (by omega) with ⟨l, hl⟩
      refine ⟨[d, 0] ++ l, ?_⟩
      rw [List.replicate_succ, List.flatten_cons, hl, List.append_assoc]

/-- The duty writes of a flash trace: `d, 0` per pulse. -/
theorem dutyWrites_flash (num : Int) (d : Nat) :
    dutyWrites (flash num d)
      = (List.replicate (flashPulseCount num) ([d, 0] : List Nat)).flatten := by
  unfold flash
  induction flashPulseCount num with
  | zero => rfl
  | succ m ih =>
    simp only [List.replicate_succ, List.flatten_cons, flashPulse, dutyWrites,
      List.filterMap_append, List.filterMap_cons, List.cons_append,
      List.nil_append, dutyOf] at ih ⊢
    simpa using ih

/-- C8: `flash(count, dutyCycle)` performs the half-second off/on pulse
pattern exactly `count - 1` times (each pulse: sleep 0.5 s, write
`dutyCycle`, sleep 0.5 s, write 0), its duty writes are `dutyCycle, 0` per
pulse — so the last duty value written, when any is, is 0 — and the trace
ends by deinitialising the PWM peripheral.  `count` is a flash count, so it
is modelled as a natural number; `count - 1` is 0 at `count = 0` (see the
degenerate-count theorem for the general integer pulse count). -/
theorem flash_pulse_pattern (count d : Nat) :
    flash count d
      = (Ev.pwmInit :: (List.replicate (count - 1) (flashPulse d)).flatten)
          ++ [Ev.pwmDeinit]
    ∧ dutyWrites (flash count d) = (List.replicate (count - 1) ([d, 0] : List Nat)).flatten
    ∧ ((dutyWrites (flash count d)).getLast? = some 0 ∨ dutyWrites (flash count d) = [])
    ∧ (flash count d).getLast? = some Ev.pwmDeinit := by
  have hc : flashPulseCount (count : Int) = count - 1 := by
    unfold flashPulseCount
    omega
  have hw : dutyWrites (flash count d)
      = (List.replicate (count - 1) ([d, 0] : List Nat)).flatten := by
    rw [dutyWrites_flash, hc]
  refine ⟨by rw [flash, hc], hw, ?_, List.getLast?_concat _⟩
  rcases Nat.eq_zero_or_pos (count - 1) with h0 | hpos
  · right
    rw [hw, h0]
    rfl
  · left
    rcases flatten_replicate_pulse_writes (count - 1) d hpos with ⟨l, hl⟩
    rw [hw, hl]
    exact List.getLast?_concat _

/-- C10: the number of pulses `flash` performs is `max(count - 1, 0)` for an
integer `count`; for every `count ≤ 1` the loop body never runs — zero
pulses — yet the PWM peripheral is still initialised and deinitialised; the
heartbeat call `flash(2, d)` performs exactly one pulse. -/
theorem flash_degenerate_counts (count : Int) (d : Nat) :
    ((flashPulseCount count : Int) = max (count - 1) 0)
    ∧ (count ≤ 1 → flash count d = [Ev.pwmInit, Ev.pwmDeinit])
    ∧ flash 2 d = [Ev.pwmInit, Ev.sleepMs 500, Ev.duty d, Ev.sleepMs 500,
        Ev.duty 0, Ev.pwmDeinit] := by
  refine ⟨?_, ?_, ?_⟩
  · unfold flashPulseCount
    omega
  · intro h
    have h0 : flashPulseCount count = 0 := by
      unfold flashPulseCount
      omega
    rw [flash, h0]
    rfl
  · have h1 : flashPulseCount 2 = 1 := rfl
    rw [flash, h1]
    rfl

/-- Witness for the degenerate-count theorem at `count = 0`. -/
theorem flash_degenerate_counts_witness :
    (0 : Int) ≤ 1 ∧ flash 0 7 = [Ev.pwmInit, Ev.pwmDeinit] :=
  ⟨by decide, (flash_degenerate_counts 0 7).2.1 (by decide)⟩

/-- C7: while `wifi.isconnected()` reports false, `connectToWifi` blocks and
retries, invoking the `flash(2, 100)` heartbeat once per retry iteration: on
an oracle whose first `k` polls fail and whose next succeeds it returns with
exactly `k` heartbeats and no other events after the connect call; on an
all-false poll prefix of any length it has not returned (it is still
looping, never escalating); and no trace it returns contains a device
reset. -/
theorem connect_blocks_with_heartbeat (k : Nat) (rest : List Bool) :
    connectToWifi (List.replicate k false ++ true :: rest)
      = some (Ev.wifiActiveOn :: Ev.wifiConnect ::
          (List.replicate k (flash 2 100)).flatten)
    ∧ connectToWifi (List.replicate k false) = none
    ∧ Ev.reset ∉ (Ev.wifiActiveOn :: Ev.wifiConnect ::
        (List.replicate k (flash 2 100)).flatten) := by
  refine ⟨?_, ?_, ?_⟩
  · rw [connectToWifi, connectLoop_replicate_false_true]
    rfl
  · rw [connectToWifi, connectLoop_replicate_false]
    rfl
  · intro h
    simp only [List.mem_cons] at h
    rcases h with h | h | h
    · exact Ev.noConfusion h
    · exact Ev.noConfusion h
    · exact absurd (mem_heartbeat_flatten h) (by decide)

/-- C2: whenever the wifi eventually associates (after `k` failed polls) and
the single `ntptime.settime()` attempt fails, `updateRTCFromNTP` emits the
connect events, the sync attempt, then exactly one distress-flash sequence
`flash(4, FULL_BRIGHTNESS)` — full brightness is written by no earlier event
of the run — and the trace ends with the unconditional `machine.reset()`:
execution never continues past it with an unsynchronised clock. -/
theorem syncFailure_distress_then_reset (k : Nat) (rest : List Bool) :
    updateRTCFromNTP (List.replicate k false ++ true :: rest) false
      = some ((Ev.wifiActiveOn :: Ev.wifiConnect ::
            (List.replicate k (flash 2 100)).flatten)
          ++ (Ev.ntpSetTime :: (flash 4 FULL_BRIGHTNESS ++ [Ev.reset])))
    ∧ Ev.duty FULL_BRIGHTNESS ∉ (Ev.wifiActiveOn :: Ev.wifiConnect ::
        (List.replicate k (flash 2 100)).flatten ++ [Ev.ntpSetTime])
    ∧ ((Ev.wifiActiveOn :: Ev.wifiConnect ::
            (List.replicate k (flash 2 100)).flatten)
          ++ (Ev.ntpSetTime :: (flash 4 FULL_BRIGHTNESS ++ [Ev.reset]))).getLast?
        = some Ev.reset := by
  refine ⟨?_, ?_, ?_⟩
  · rw [updateRTCFromNTP, connectToWifi, connectLoop_replicate_false_true]
    rfl
  · intro h
    rcases List.mem_append.mp h with h | h
    · rcases List.mem_cons.mp h with h | h
      · exact Ev.noConfusion h
      rcases List.mem_cons.mp h with h | h
      · exact Ev.noConfusion h
      · exact absurd (mem_heartbeat_flatten h) (by decide)
    · rcases List.mem_cons.mp h with h | h
      · exact Ev.noConfusion h
      · cases h
  · rw [List.getLast?_append_of_ne_nil _ (by simp)]
    decide

/-- C5 counterexample: a concrete failing resynchronisation (first poll
connected, NTP attempt fails).  Its trace restarts the device but contains
neither `wifi.disconnect()` nor `wifi.active(False)`: the session is not
torn down before the restart, contrary to the claim that it is torn down on
success or failure. -/
theorem syncFailure_no_teardown_counterexample :
    updateRTCFromNTP [true] false = some failTraceExample
    ∧ Ev.reset ∈ failTraceExample
    ∧ Ev.wifiDisconnect ∉ failTraceExample
    ∧ Ev.wifiActiveOff ∉ failTraceExample := by
  refine ⟨?_, by decide, by decide, by decide⟩
  rfl

/-- C5 amended: when the sync attempt succeeds, `updateRTCFromNTP` tears the
session down — `wifi.disconnect()` then `wifi.active(False)` are its last
two events — before returning; when the attempt fails, the device restarts
immediately (the trace ends with `machine.reset()`) without an explicit
disconnect or deactivation, the restart itself ending the session; in
neither case does the session survive into another scheduler iteration. -/
theorem session_teardown_amended (k : Nat) (rest : List Bool) :
    (∃ pre, updateRTCFromNTP (List.replicate k false ++ true :: rest) true
        = some (pre ++ [Ev.wifiDisconnect, Ev.wifiActiveOff]))
    ∧ (∃ tr, updateRTCFromNTP (List.replicate k false ++ true :: rest) false
          = some tr
        ∧ tr.getLast? = some Ev.reset
        ∧ Ev.wifiDisconnect ∉ tr
        ∧ Ev.wifiActiveOff ∉ tr) := by
  constructor
  · refine ⟨Ev.wifiActiveOn :: Ev.wifiConnect ::
        (List.replicate k (flash 2 100)).flatten
          ++ [Ev.ntpSetTime, Ev.readLocalTime], ?_⟩
    rw [updateRTCFromNTP, connectToWifi, connectLoop_replicate_false_true]
    simp
  · refine ⟨(Ev.wifiActiveOn :: Ev.wifiConnect ::
          (List.replicate k (flash 2 100)).flatten)
        ++ (Ev.ntpSetTime :: (flash 4 FULL_BRIGHTNESS ++ [Ev.reset])), ?_, ?_, ?_, ?_⟩
    · rw [updateRTCFromNTP, connectToWifi, connectLoop_replicate_false_true]
      rfl
    · rw [List.getLast?_append_of_ne_nil _ (by simp)]
      decide
    · intro h
      rcases List.mem_append.mp h with h | h
      · rcases List.mem_cons.mp h with h | h
        · exact Ev.noConfusion h
        rcases List.mem_cons.mp h with h | h
        · exact Ev.noConfusion h
        · exact absurd (mem_heartbeat_flatten h) (by decide)
      · rcases List.mem_cons.mp h with h | h
        · exact Ev.noConfusion h
        · exact absurd h (by decide)
    · intro h
      rcases List.mem_append.mp h with h | h
      · rcases List.mem_cons.mp h with h | h
        · exact Ev.noConfusion h
        rcases List.mem_cons.mp h with h | h
        · exact Ev.noConfusion h
        · exact absurd (mem_heartbeat_flatten h) (by decide)
      · rcases List.mem_cons.mp h with h | h
        · exact Ev.noConfusion h
        · exact absurd h (by decide)

/-- C6: at process start, before the scheduler loop, `main` runs the default
self-test fade (1-second hold, default 0.005 s step delay) and then the
synchronous clock update; when that update's network-time fetch fails, the
trace shows the `flash(4, FULL_BRIGHTNESS)` distress signal — 3 on-pulses at
full brightness — ending in a device reset, and the scheduler loop is never
entered; when the fetch succeeds, the scheduler loop is entered. -/
theorem startup_selftest_then_sync (k : Nat) :
    setup (List.replicate k false ++ [true]) false
      = some (fade 1 5
          ++ ((Ev.wifiActiveOn :: Ev.wifiConnect ::
                (List.replicate k (flash 2 100)).flatten)
              ++ (Ev.ntpSetTime :: (flash 4 FULL_BRIGHTNESS ++ [Ev.reset]))))
    ∧ (flash 4 FULL_BRIGHTNESS).count (Ev.duty FULL_BRIGHTNESS) = 3
    ∧ mainEntersScheduler (List.replicate k false ++ [true]) false = false
    ∧ mainEntersScheduler (List.replicate k false ++ [true]) true = true := by
  have hs : setup (List.replicate k false ++ [true]) false
      = some (fade 1 5
          ++ ((Ev.wifiActiveOn :: Ev.wifiConnect ::
                (List.replicate k (flash 2 100)).flatten)
              ++ (Ev.ntpSetTime :: (flash 4 FULL_BRIGHTNESS ++ [Ev.reset])))) := by
    rw [setup, updateRTCFromNTP, connectToWifi, connectLoop_replicate_false_true]
    rfl
  have hsOk : setup (List.replicate k false ++ [true]) true
      = some (fade 1 5
          ++ ((Ev.wifiActiveOn :: Ev.wifiConnect ::
                (List.replicate k (flash 2 100)).flatten)
              ++ [Ev.ntpSetTime, Ev.readLocalTime, Ev.wifiDisconnect,
                  Ev.wifiActiveOff])) := by
    rw [setup, updateRTCFromNTP, connectToWifi, connectLoop_replicate_false_true]
    rfl
  refine ⟨hs, by decide, ?_, ?_⟩
  · have hmem : Ev.reset ∈ fade 1 5
        ++ ((Ev.wifiActiveOn :: Ev.wifiConnect ::
              (List.replicate k (flash 2 100)).flatten)
            ++ (Ev.ntpSetTime :: (flash 4 FULL_BRIGHTNESS ++ [Ev.reset]))) := by
      refine List.mem_append.mpr (Or.inr (List.mem_append.mpr (Or.inr ?_)))
      refine List.mem_cons.mpr (Or.inr (List.mem_append.mpr (Or.inr ?_)))
      exact List.mem_cons_self _ _
    simp [mainEntersScheduler, hs, hmem]
  · have hmem : Ev.reset ∉ fade 1 5
        ++ ((Ev.wifiActiveOn :: Ev.wifiConnect ::
              (List.replicate k (flash 2 100)).flatten)
            ++ [Ev.ntpSetTime, Ev.readLocalTime, Ev.wifiDisconnect,
                Ev.wifiActiveOff]) := by
      intro h
      rcases List.mem_append.mp h with h | h
      · exact reset_not_mem_fade 1 5 h
      rcases List.mem_append.mp h with h | h
      · rcases List.mem_cons.mp h with h | h
        · exact Ev.noConfusion h
        rcases List.mem_cons.mp h with h | h
        · exact Ev.noConfusion h
        · exact absurd (mem_heartbeat_flatten h) (by decide)
      · exact absurd h (by decide)
    simp only [mainEntersScheduler, hsOk]
    rw [if_neg hmem]

/-- C3: in a scheduler iteration, the sunrise fade — with the configured
sunrise hold `LIT_LENGTH * SEC_IN_HOUR` = 7200 s and the default 0.005 s
step delay — is invoked iff the `(hour, minute)` sample polled at the top of
the iteration equals `WAKEUP_TUPLE`; with the source configuration
`(4, 45)`, a poll of `(4, 45)` triggers it while `(4, 44)` and `(4, 46)` do
not. -/
theorem wake_trigger_iff (hm : Nat × Nat) :
    (Action.sunriseFade (LIT_LENGTH * SEC_IN_HOUR) 5 ∈ clockIteration WAKEUP_TUPLE hm
        ↔ hm = WAKEUP_TUPLE)
    ∧ clockIteration WAKEUP_TUPLE (4, 45)
        = [Action.sunriseFade (LIT_LENGTH * SEC_IN_HOUR) 5, Action.pollSleep 30]
    ∧ Action.sunriseFade (LIT_LENGTH * SEC_IN_HOUR) 5 ∉ clockIteration WAKEUP_TUPLE (4, 44)
    ∧ Action.sunriseFade (LIT_LENGTH * SEC_IN_HOUR) 5 ∉ clockIteration WAKEUP_TUPLE (4, 46) := by
  refine ⟨⟨?_, ?_⟩, by decide, by decide, by decide⟩
  · intro h
    by_contra hne
    rw [clockIteration, if_neg hne] at h
    rcases List.mem_append.mp h with h | h
    · rw [List.nil_append] at h
      by_cases hr : isResyncTime hm = true
      · rw [if_pos hr] at h
        rcases List.mem_cons.mp h with h | h
        · exact Action.noConfusion h
        · cases h
      · rw [if_neg hr] at h
        cases h
    · rcases List.mem_cons.mp h with h | h
      · exact Action.noConfusion h
      · cases h
  · intro h
    subst h
    rw [clockIteration, if_pos rfl]
    exact List.mem_append.mpr (Or.inl (List.mem_append.mpr
      (Or.inl (List.mem_cons_self _ _))))

/-- C4: in a scheduler iteration, a resynchronisation is invoked iff the
`(hour, minute)` sample polled at the top of the iteration is one of the
four configured resync times `(0,0)`, `(6,0)`, `(12,0)`, `(18,0)`; a poll of
`(6, 0)` triggers it while `(6, 1)` does not. -/
theorem resync_trigger_iff (hm : Nat × Nat) :
    (Action.resyncClock ∈ clockIteration WAKEUP_TUPLE hm ↔ isResyncTime hm = true)
    ∧ (isResyncTime hm = true
        ↔ (hm = (0, 0) ∨ hm = (6, 0) ∨ hm = (12, 0) ∨ hm = (18, 0)))
    ∧ Action.resyncClock ∈ clockIteration WAKEUP_TUPLE (6, 0)
    ∧ Action.resyncClock ∉ clockIteration WAKEUP_TUPLE (6, 1) := by
  refine ⟨⟨?_, ?_⟩, ?_, by decide, by decide⟩
  · intro h
    by_contra hr
    rw [clockIteration, if_neg hr, List.append_nil] at h
    rcases List.mem_append.mp h with h | h
    · by_cases hw : hm = WAKEUP_TUPLE
      · rw [if_pos hw] at h
        rcases List.mem_cons.mp h with h | h
        · exact Action.noConfusion h
        · cases h
      · rw [if_neg hw] at h
        cases h
    · rcases List.mem_cons.mp h with h | h
      · exact Action.noConfusion h
      · cases h
  · intro hr
    rw [clockIteration, if_pos hr]
    exact List.mem_append.mpr (Or.inl (List.mem_append.mpr
      (Or.inr (List.mem_cons_self _ _))))
  · unfold isResyncTime
    simp [beq_iff_eq, or_assoc]

/-- C9 (implicit): the scheduler samples local time once at the top of each
iteration — in the embedding `clockIteration` is a function of that single
sample, exactly as `hourMin` is bound once in the source — and both the
wake-time and resync-time comparisons consult the same sample, so for a
configured wake tuple that is also a resync time, the iteration that polls
that value runs the fade and then the resync, fade first, before the poll
sleep. -/
theorem shared_sample_fade_then_resync (wake : Nat × Nat)
    (h : isResyncTime wake = true) :
    clockIteration wake wake
      = [Action.sunriseFade (LIT_LENGTH * SEC_IN_HOUR) 5, Action.resyncClock,
          Action.pollSleep 30] := by
  rw [clockIteration, if_pos rfl, if_pos h]
  rfl

/-- Witness: `(6, 0)` is a resync time, and an iteration with wake tuple
`(6, 0)` polling `(6, 0)` performs the fade and then the resync. -/
theorem shared_sample_fade_then_resync_witness :
    isResyncTime (6, 0) = true
    ∧ clockIteration (6, 0) (6, 0)
        = [Action.sunriseFade (LIT_LENGTH * SEC_IN_HOUR) 5, Action.resyncClock,
            Action.pollSleep 30] :=
  ⟨by decide, shared_sample_fade_then_resync (6, 0) (by decide)⟩

end WakeUpLamp
